import Mathlib

/-!
Shallow embedding of `portal/capstone/models.py`, the scheduling core of the
capstone portal: the `Simulator` model with its lifecycle methods `start`,
`create_due_datapoints`, `add_student_app` and `reset`.

Modelling conventions, stated once:

* Times and durations are exact rationals (`ℚ`), measured in seconds.  This
  abstracts the microsecond quantisation of Python `datetime`/`timedelta`
  arithmetic and the IEEE rounding of `timedelta.total_seconds()`; every
  claim is stated at a granularity where the two agree.
* The ambient clock `datetime.now(timezone.utc)` becomes an explicit
  parameter `now`.
* Django persistence is folded into the state record: `save()`,
  `delete()` and `bulk_create` become functional updates, and a method that
  can raise returns `Simulator × Option Err`, the returned state holding
  every mutation performed before the exception (the code runs in
  autocommit mode with no transaction wrapper, so a raised exception does
  not undo earlier `save`/`delete`/`bulk_create` calls).
* `logger.info`/`logger.debug` calls are effect-free and dropped, except
  the bare `logger.critical()` on the capacity-failure path (line 83),
  which in Python raises `TypeError` (missing its required `msg` argument)
  and is therefore part of the control flow.
* A `Simulator`'s related rows (its `datapoints`, its `due_datapoints`, and
  the capstone's `StudentApp`s) are carried as lists inside the record, in
  query order; database primary keys become `id`/`student` fields of type
  `ℕ`.
* `str.format` on the endpoint template is modelled for its documented use
  (a single `{app_name}` placeholder): every occurrence of the placeholder
  is replaced by the student app's name.
-/

namespace Portal

/-- One input payload row (`Datapoint`), identified by its primary key. -/
structure Datapoint where
  id : ℕ
  data : String

/-- One enrollment row (`StudentApp`): the student (by primary key) and the
deployed application name, which may be blank. -/
structure StudentApp where
  student : ℕ
  app_name : String

/-- One scheduled delivery (`DueDatapoint`), as constructed in
`Simulator.add_student_app`: the referenced data point and student, the due
timestamp, the resolved URL, and the state (created with its default
`"due"`).  The response fields written later by the external dispatch
worker are out of the scheduling core and are not modelled. -/
structure DueDatapoint where
  datapointId : ℕ
  student : ℕ
  due : ℚ
  url : String
  state : String

/-- External configuration read from `settings`: `PRODUCER_INTERVAL`
(a duration in seconds) and `BLOCK_SIZE` (an integer capacity). -/
structure Config where
  producerInterval : ℚ
  blockSize : ℕ

/-- The `Simulator` model row together with its related rows. -/
structure Simulator where
  status : String
  started : Option ℚ
  ends : Option ℚ
  interval : Option ℚ
  endpoint : String
  datapoints : List Datapoint
  student_apps : List StudentApp
  due_datapoints : List DueDatapoint

/-- Exceptions that the scheduling methods can raise.

* `typeErrorMissingLogMsg` — the bare `logger.critical()` call on the
  capacity-failure path (line 83 of `models.py`) raises `TypeError:
  critical() missing 1 required positional argument`, so the
  `raise RuntimeError(...)` right after it (which would carry the required
  and available figures) is dead code.
* `typeErrorNoneOperand` — `self.ends - starts` with a `None` operand
  (line 72 with `ends` unset, line 102 with `starts=None`).
* `zeroDivisionError` — `timedelta / 0` when a run has no data points, or
  `x / interval.total_seconds()` when the window is empty.
* `runtimeCapacity required available` — the `RuntimeError` that line 84
  builds with both figures; kept for reference, never reachable because
  `logger.critical()` raises first. -/
inductive Err where
  | typeErrorMissingLogMsg
  | typeErrorNoneOperand
  | zeroDivisionError
  | runtimeCapacity (required : ℚ) (available : ℕ)

deriving instance DecidableEq, Repr for Datapoint
deriving instance DecidableEq, Repr for StudentApp
deriving instance DecidableEq, Repr for DueDatapoint
deriving instance DecidableEq, Repr for Config
deriving instance DecidableEq, Repr for Simulator
deriving instance DecidableEq, Repr for Err

/-- Character sequence of the endpoint placeholder `{app_name}`. -/
def appNameToken : List Char := "{app_name}".data

/-- Fuel-indexed replacement of every `{app_name}` occurrence; the fuel is
always instantiated with the template length, which suffices. -/
def replaceAppName (app : List Char) : ℕ → List Char → List Char
  | 0, t => t
  | _ + 1, [] => []
  | f + 1, c :: rest =>
    if appNameToken.isPrefixOf (c :: rest) then
      app ++ replaceAppName app f ((c :: rest).drop appNameToken.length)
    else
      c :: replaceAppName app f rest

/-- Model of `self.endpoint.format(app_name=student_app.app_name)` for the
documented single-placeholder templates. -/
def renderUrl (template app_name : String) : String :=
  ⟨replaceAppName app_name.data template.data.length template.data⟩

/-- Model of the queryset
`StudentApp.objects.filter(capstone=self.capstone).exclude(app_name='')`:
the capstone's enrollments whose application name is non-blank. -/
def eligibleApps (s : Simulator) : List StudentApp :=
  s.student_apps.filter (fun a => a.app_name ≠ "")

/-- The list built by the `for datapoint in datapoints` loop of
`add_student_app`: one `DueDatapoint` per data point, the running `due`
advancing by `interval` after each append. -/
def mkDueList (student : ℕ) (url : String) (interval : ℚ) :
    List Datapoint → ℚ → List DueDatapoint
  | [], _ => []
  | dp :: rest, due =>
    { datapointId := dp.id, student := student, due := due, url := url,
      state := "due" } :: mkDueList student url interval rest (due + interval)

/-- Model of `Simulator.add_student_app(self, student_app, datapoints,
starts=None)` (lines 98–122).  `due = starts or now` (a datetime is always
truthy, so only `None` falls back to the clock); then
`interval = (self.ends - starts) / datapoints.count()`, which raises
`TypeError` when `self.ends` or `starts` is `None` and `ZeroDivisionError`
when there are no data points; on success the built batch is
`bulk_create`d, i.e. appended to the simulator's due set. -/
def Simulator.add_student_app (s : Simulator) (app : StudentApp)
    (datapoints : List Datapoint) (starts : Option ℚ) (now : ℚ) :
    Simulator × Option Err :=
  let due : ℚ := starts.getD now
  match s.ends, starts with
  | some ends, some startsVal =>
    if datapoints.length = 0 then (s, some Err.zeroDivisionError)
    else
      let interval : ℚ := (ends - startsVal) / (datapoints.length : ℚ)
      let url : String := renderUrl s.endpoint app.app_name
      ({ s with due_datapoints :=
          s.due_datapoints ++ mkDueList app.student url interval datapoints due },
       none)
  | _, _ => (s, some Err.typeErrorNoneOperand)

/-- The `for student_app in student_apps: self.add_student_app(...)` loop of
`create_due_datapoints`, threading the simulator state and stopping at the
first raised exception. -/
def addAll (datapoints : List Datapoint) (starts : Option ℚ) (now : ℚ) :
    List StudentApp → Simulator → Simulator × Option Err
  | [], s => (s, none)
  | app :: rest, s =>
    match s.add_student_app app datapoints starts now with
    | (s1, none) => addAll datapoints starts now rest s1
    | r => r

/-- Model of `Simulator.create_due_datapoints(self, starts)` (lines 64–96).
First `self.due_datapoints.all().delete()`; then
`interval = (self.ends - starts) / datapoints.count()` (`TypeError` on a
`None` end, `ZeroDivisionError` on zero data points); then the capacity
figure `required = student_apps.count() * (PRODUCER_INTERVAL /
interval.total_seconds())` (`ZeroDivisionError` on an empty window); if
`BLOCK_SIZE < required` the bare `logger.critical()` raises `TypeError`
before the `RuntimeError` carrying the figures; otherwise `self.interval`
is stored and each eligible enrollment is scheduled. -/
def Simulator.create_due_datapoints (s : Simulator) (cfg : Config)
    (now starts : ℚ) : Simulator × Option Err :=
  let s1 : Simulator := { s with due_datapoints := [] }
  match s1.ends with
  | none => (s1, some Err.typeErrorNoneOperand)
  | some ends =>
    if s1.datapoints.length = 0 then (s1, some Err.zeroDivisionError)
    else
      let interval : ℚ := (ends - starts) / (s1.datapoints.length : ℚ)
      if interval = 0 then (s1, some Err.zeroDivisionError)
      else
        let apps : List StudentApp := eligibleApps s1
        let required : ℚ := (apps.length : ℚ) * (cfg.producerInterval / interval)
        if (cfg.blockSize : ℚ) < required then
          (s1, some Err.typeErrorMissingLogMsg)
        else
          addAll s1.datapoints (some starts) now apps
            { s1 with interval := some interval }

/-- Model of `Simulator.start(self)` (lines 54–62): only a simulator whose
status is the transient `"start"` acts; it stamps `started = now`, sets
`status = "started"`, saves, and then generates the schedule anchored at
`now`. -/
def Simulator.start (s : Simulator) (cfg : Config) (now : ℚ) :
    Simulator × Option Err :=
  if s.status = "start" then
    Simulator.create_due_datapoints
      { s with started := some now, status := "started" } cfg now now
  else (s, none)

/-- Model of `Simulator.reset(self)` (lines 127–132): only a simulator whose
status is the transient `"reset"` acts; it deletes every due item and
settles in `"stopped"`. -/
def Simulator.reset (s : Simulator) : Simulator :=
  if s.status = "reset" then { s with due_datapoints := [], status := "stopped" }
  else s

/-- The batch that a successful `create_due_datapoints` generates: for each
eligible enrollment in order, the `add_student_app` list for the run's data
points, anchored at `starts` with the given interval.  Defined from the
source loop structure; its only purpose is to state theorems about the due
set after a successful generation. -/
def freshBatch (endpoint : String) (datapoints : List Datapoint)
    (starts interval : ℚ) : List StudentApp → List DueDatapoint
  | [] => []
  | app :: rest =>
    mkDueList app.student (renderUrl endpoint app.app_name) interval
        datapoints starts
      ++ freshBatch endpoint datapoints starts interval rest

section Lemmas

variable {student : ℕ} {url endpoint : String} {interval st now e : ℚ}

theorem mkDueList_length (dps : List Datapoint) :
    ∀ due : ℚ, (mkDueList student url interval dps due).length = dps.length := by
  induction dps with
  | nil => intro due; rfl
  | cons dp rest ih => intro due; simp [mkDueList, ih]

theorem mkDueList_get? (dps : List Datapoint) :
    ∀ (due : ℚ) (i : ℕ),
      (mkDueList student url interval dps due).get? i =
        (dps.get? i).map (fun dp =>
          { datapointId := dp.id, student := student,
            due := due + (i : ℚ) * interval, url := url, state := "due" }) := by
  induction dps with
  | nil => intro due i; rfl
  | cons dp rest ih =>
    intro due i
    cases i with
    | zero => simp only [mkDueList]; simp
    | succ j =>
      simp only [mkDueList, List.get?_cons_succ, ih (due + interval) j]
      cases rest.get? j with
      | none => rfl
      | some dp' =>
        dsimp only [Option.map]
        congr 1
        push_cast
        ring_nf

theorem mkDueList_map_pair (dps : List Datapoint) :
    ∀ due : ℚ,
      (mkDueList student url interval dps due).map
          (fun d => (d.student, d.datapointId)) =
        dps.map (fun dp => (student, dp.id)) := by
  induction dps with
  | nil => intro due; rfl
  | cons dp rest ih => intro due; simp [mkDueList, ih]

theorem mem_mkDueList_student {d : DueDatapoint} (dps : List Datapoint) :
    ∀ due : ℚ, d ∈ mkDueList student url interval dps due → d.student = student := by
  induction dps with
  | nil => intro due h; simp [mkDueList] at h
  | cons dp rest ih =>
    intro due h
    rcases List.mem_cons.mp h with h0 | h1
    · rw [h0]
    · exact ih (due + interval) h1

theorem freshBatch_length (dps : List Datapoint) (apps : List StudentApp) :
    (freshBatch endpoint dps st interval apps).length =
      apps.length * dps.length := by
  induction apps with
  | nil => simp [freshBatch]
  | cons app rest ih =>
    simp [freshBatch, ih, mkDueList_length, Nat.succ_mul, Nat.add_comm]

theorem mem_freshBatch_student {d : DueDatapoint} (dps : List Datapoint)
    (apps : List StudentApp) :
    d ∈ freshBatch endpoint dps st interval apps →
      d.student ∈ apps.map (fun a => a.student) := by
  induction apps with
  | nil => intro h; simp [freshBatch] at h
  | cons app rest ih =>
    intro h
    rcases List.mem_append.mp h with h0 | h1
    · exact List.mem_map.mpr ⟨app, List.mem_cons_self _ _,
        (mem_mkDueList_student dps st h0).symm⟩
    · exact List.mem_map.mpr <| by
        rcases List.mem_map.mp (ih h1) with ⟨a, ha, hstu⟩
        exact ⟨a, List.mem_cons_of_mem _ ha, hstu⟩

theorem freshBatch_pairs_nodup (dps : List Datapoint) (apps : List StudentApp)
    (happs : (apps.map (fun a => a.student)).Nodup)
    (hdps : (dps.map (fun dp => dp.id)).Nodup) :
    ((freshBatch endpoint dps st interval apps).map
        (fun d => (d.student, d.datapointId))).Nodup := by
  induction apps with
  | nil => simp [freshBatch]
  | cons app rest ih =>
    rw [List.map_cons, List.nodup_cons] at happs
    simp only [freshBatch, List.map_append]
    refine List.Nodup.append ?_ (ih happs.2) ?_
    · rw [mkDueList_map_pair]
      have : dps.map (fun dp => (app.student, dp.id)) =
          (dps.map (fun dp => dp.id)).map (fun i => (app.student, i)) := by
        simp [List.map_map]
      rw [this]
      exact hdps.map (fun a b hab => (Prod.mk.injEq _ _ _ _).mp hab |>.2)
    · intro x hx1 hx2
      rw [mkDueList_map_pair] at hx1
      rcases List.mem_map.mp hx1 with ⟨dp, _, hxeq⟩
      rcases List.mem_map.mp hx2 with ⟨d, hd, hdeq⟩
      have hstu : d.student ∈ rest.map (fun a => a.student) :=
        mem_freshBatch_student dps rest hd
      have : app.student ∈ rest.map (fun a => a.student) := by
        have : x.1 = app.student := by rw [← hxeq]
        have h2 : x.1 = d.student := by rw [← hdeq]
        rw [← this, h2]
        exact hstu
      exact happs.1 this

theorem add_student_app_ok (s : Simulator) (app : StudentApp)
    (dps : List Datapoint) (hends : s.ends = some e)
    (hlen : dps.length ≠ 0) :
    s.add_student_app app dps (some st) now =
      ({ s with due_datapoints := (s.due_datapoints ++
          mkDueList app.student (renderUrl s.endpoint app.app_name)
            ((e - st) / (dps.length : ℚ)) dps st) }, none) := by
  simp only [Simulator.add_student_app, hends]
  simp [hlen]

end Lemmas

theorem addAll_ok (st now e : ℚ) (dps : List Datapoint)
    (hlen : dps.length ≠ 0) :
    ∀ (apps : List StudentApp) (s : Simulator), s.ends = some e →
      addAll dps (some st) now apps s =
        ({ s with due_datapoints := (s.due_datapoints ++
            freshBatch s.endpoint dps st ((e - st) / (dps.length : ℚ)) apps) },
         none) := by
  intro apps
  induction apps with
  | nil => intro s hends; simp [addAll, freshBatch]
  | cons app rest ih =>
    intro s hends
    rw [addAll, add_student_app_ok s app dps hends hlen]
    dsimp only
    have h1 := ih { s with due_datapoints := (s.due_datapoints ++
        mkDueList app.student (renderUrl s.endpoint app.app_name)
          ((e - st) / (dps.length : ℚ)) dps st) } hends
    rw [h1]
    simp [freshBatch, List.append_assoc]

theorem create_err_noends (s : Simulator) (cfg : Config) (now starts : ℚ)
    (hends : s.ends = none) :
    s.create_due_datapoints cfg now starts =
      ({ s with due_datapoints := [] }, some Err.typeErrorNoneOperand) := by
  simp only [Simulator.create_due_datapoints, hends]

theorem create_err_nodps (s : Simulator) (cfg : Config) (now starts e : ℚ)
    (hends : s.ends = some e) (hlen : s.datapoints.length = 0) :
    s.create_due_datapoints cfg now starts =
      ({ s with due_datapoints := [] }, some Err.zeroDivisionError) := by
  simp only [Simulator.create_due_datapoints, hends]
  simp [hlen]

theorem create_err_zerowindow (s : Simulator) (cfg : Config) (now starts e : ℚ)
    (hends : s.ends = some e) (hlen : s.datapoints.length ≠ 0)
    (hI : (e - starts) / (s.datapoints.length : ℚ) = 0) :
    s.create_due_datapoints cfg now starts =
      ({ s with due_datapoints := [] }, some Err.zeroDivisionError) := by
  simp only [Simulator.create_due_datapoints, hends]
  simp [hlen, hI]

theorem create_err_capacity (s : Simulator) (cfg : Config) (now starts e : ℚ)
    (hends : s.ends = some e) (hlen : s.datapoints.length ≠ 0)
    (hI : (e - starts) / (s.datapoints.length : ℚ) ≠ 0)
    (hcap : (cfg.blockSize : ℚ) <
      ((eligibleApps s).length : ℚ) *
        (cfg.producerInterval / ((e - starts) / (s.datapoints.length : ℚ)))) :
    s.create_due_datapoints cfg now starts =
      ({ s with due_datapoints := [] }, some Err.typeErrorMissingLogMsg) := by
  simp only [Simulator.create_due_datapoints, hends, eligibleApps]
  simp only [eligibleApps] at hcap
  rw [if_neg hlen, if_neg hI, if_pos hcap]

theorem create_ok (s : Simulator) (cfg : Config) (now starts e : ℚ)
    (hends : s.ends = some e) (hlen : s.datapoints.length ≠ 0)
    (hI : (e - starts) / (s.datapoints.length : ℚ) ≠ 0)
    (hcap : ¬((cfg.blockSize : ℚ) <
      ((eligibleApps s).length : ℚ) *
        (cfg.producerInterval / ((e - starts) / (s.datapoints.length : ℚ))))) :
    s.create_due_datapoints cfg now starts =
      ({ s with
          interval := some ((e - starts) / (s.datapoints.length : ℚ)),
          due_datapoints := freshBatch s.endpoint s.datapoints starts
            ((e - starts) / (s.datapoints.length : ℚ)) (eligibleApps s) },
       none) := by
  simp only [Simulator.create_due_datapoints, hends, eligibleApps]
  simp only [eligibleApps] at hcap
  rw [if_neg hlen, if_neg hI, if_neg hcap]
  have h2 := addAll_ok starts now e s.datapoints hlen
    (s.student_apps.filter (fun a => a.app_name ≠ ""))
    { s with ends := some e, due_datapoints := [], interval := some ((e - starts) / (s.datapoints.length : ℚ)) } rfl
  simp only [eligibleApps] at h2
  rw [h2]
  simp [eligibleApps]

theorem create_succ (s : Simulator) (cfg : Config) (now starts : ℚ)
    (h : (s.create_due_datapoints cfg now starts).2 = none) :
    ∃ e, s.ends = some e ∧ s.datapoints.length ≠ 0 ∧
      (e - starts) / (s.datapoints.length : ℚ) ≠ 0 ∧
      ¬((cfg.blockSize : ℚ) <
        ((eligibleApps s).length : ℚ) *
          (cfg.producerInterval / ((e - starts) / (s.datapoints.length : ℚ)))) := by
  cases hE : s.ends with
  | none => rw [create_err_noends s cfg now starts hE] at h; simp at h
  | some e =>
    by_cases hlen : s.datapoints.length = 0
    · rw [create_err_nodps s cfg now starts e hE hlen] at h; simp at h
    by_cases hI : (e - starts) / (s.datapoints.length : ℚ) = 0
    · rw [create_err_zerowindow s cfg now starts e hE hlen hI] at h; simp at h
    by_cases hcap : (cfg.blockSize : ℚ) <
        ((eligibleApps s).length : ℚ) *
          (cfg.producerInterval / ((e - starts) / (s.datapoints.length : ℚ)))
    · rw [create_err_capacity s cfg now starts e hE hlen hI hcap] at h; simp at h
    exact ⟨e, rfl, hlen, hI, hcap⟩

/-! Concrete sample data used by witnesses and counterexamples. -/

/-- Sample data point with primary key 1. -/
def dpA : Datapoint := ⟨1, "a"⟩

/-- Sample data point with primary key 2. -/
def dpB : Datapoint := ⟨2, "b"⟩

/-- Sample eligible enrollment (non-blank app name). -/
def appAlice : StudentApp := ⟨1, "alice"⟩

/-- Second sample eligible enrollment. -/
def appBob : StudentApp := ⟨2, "bob"⟩

/-- Sample ineligible enrollment (blank app name). -/
def appBlank : StudentApp := ⟨3, ""⟩

/-- Generous configuration: fast producer, large block. -/
def cfgSample : Config := ⟨1, 100⟩

/-- Tight configuration: slow producer (100 s) and a block of 5, so any
non-trivial run overflows the capacity check. -/
def cfgTight : Config := ⟨100, 5⟩

/-- A simulator in the transient `"start"` state: window 0–10 s, two data
points, two eligible enrollments and one ineligible one, one stale due item
left over from a previous run. -/
def simStart : Simulator :=
  { status := "start", started := some 99, ends := some 10, interval := none,
    endpoint := "http://{app_name}/p", datapoints := [dpA, dpB],
    student_apps := [appAlice, appBob, appBlank],
    due_datapoints := [⟨7, 7, 7, "http://old/p", "queued"⟩] }

/-- The same simulator already settled in `"started"`. -/
def simStarted : Simulator := { simStart with status := "started" }

/-- The same simulator in the transient `"reset"` state. -/
def simReset : Simulator := { simStart with status := "reset" }

/-- A run with no data points at all. -/
def simNoDps : Simulator := { simStart with datapoints := [] }

/-- A run with data points but no eligible enrollment and an empty window
(`ends = starts = 0`). -/
def simZeroAppsZeroWindow : Simulator :=
  { simStart with ends := some 0, student_apps := [appBlank] }

/-- A run with data points, no eligible enrollment, and a proper window. -/
def simZeroApps : Simulator := { simStart with student_apps := [appBlank] }

/-! Claims. -/

/-- Claim C1, counterexample.  The claim says that when the capacity check
fails during a start transition, the run's status, started timestamp and
existing due-item set are all left unchanged.  At this concrete input the
error does propagate, but the status has moved from `"start"` to
`"started"`, the started timestamp has been overwritten, and the stale due
item has been deleted; only the interval is untouched. -/
theorem claim1_counterexample :
    (simStart.start cfgTight 0).2 = some Err.typeErrorMissingLogMsg ∧
    (simStart.start cfgTight 0).1.status ≠ simStart.status ∧
    (simStart.start cfgTight 0).1.started ≠ simStart.started ∧
    (simStart.start cfgTight 0).1.due_datapoints ≠ simStart.due_datapoints ∧
    (simStart.start cfgTight 0).1.interval = simStart.interval := by
  with_unfolding_all decide

/-- Claim C1, amended.  If the capacity check fails during a start
transition, the error propagates to the caller and the interval field is
left unchanged, but the transition is partially applied: the status is
already `"started"`, the started timestamp is already overwritten with
`now`, and the pre-existing due items are already deleted, because
`start` saves those fields and `create_due_datapoints` deletes the due set
before the capacity check runs. -/
theorem claim1_theorem (s : Simulator) (cfg : Config) (now e : ℚ)
    (hst : s.status = "start") (hends : s.ends = some e)
    (hlen : s.datapoints.length ≠ 0)
    (hI : (e - now) / (s.datapoints.length : ℚ) ≠ 0)
    (hcap : (cfg.blockSize : ℚ) <
      ((eligibleApps s).length : ℚ) *
        (cfg.producerInterval / ((e - now) / (s.datapoints.length : ℚ)))) :
    s.start cfg now =
      ({ s with started := some now, status := "started", due_datapoints := [] },
       some Err.typeErrorMissingLogMsg) := by
  rw [Simulator.start, if_pos hst]
  exact create_err_capacity
    { s with started := some now, status := "started" } cfg now now e
    hends hlen hI hcap

/-- Claim C1, witness for the amended theorem at the concrete tight-capacity
input. -/
theorem claim1_witness :
    simStart.start cfgTight 0 =
      ({ simStart with started := some 0, status := "started", due_datapoints := [] },
       some Err.typeErrorMissingLogMsg) :=
  claim1_theorem simStart cfgTight 0 10 (by with_unfolding_all decide)
    (by with_unfolding_all decide) (by with_unfolding_all decide)
    (by with_unfolding_all decide) (by with_unfolding_all decide)

/-- Claim C2 (code bug).  The capacity condition itself matches the claim
(`blockSize < participantCount * (producerInterval / cycleInterval)`, with
boundary equality passing: the second conjunct, at `blockSize = 2` against
a required figure of exactly `2`, succeeds).  But when the check fails the
raised error carries no figures at all: the bare `logger.critical()` on
line 83 raises `TypeError` before the `RuntimeError` carrying the required
and available figures can be built, as the first conjunct shows at
`blockSize = 1` against a required figure of `2`. -/
theorem claim2_code_evaluation :
    (simStart.create_due_datapoints ⟨5, 1⟩ 0 0).2 =
        some Err.typeErrorMissingLogMsg ∧
    (simStart.create_due_datapoints ⟨5, 2⟩ 0 0).2 = none := by
  with_unfolding_all decide

/-- Claim C5 (confirmed).  For a run with an end time and zero data points,
schedule generation fails fast — the division computing the interval
raises `ZeroDivisionError`, the code-level signal the spec labels
`InvalidSchedule` — and the run ends with no due items created. -/
theorem claim5_theorem (s : Simulator) (cfg : Config) (now starts e : ℚ)
    (hends : s.ends = some e) (hlen : s.datapoints.length = 0) :
    s.create_due_datapoints cfg now starts =
      ({ s with due_datapoints := [] }, some Err.zeroDivisionError) :=
  create_err_nodps s cfg now starts e hends hlen

/-- Claim C5, witness: the concrete zero-data-point run. -/
theorem claim5_witness :
    simNoDps.create_due_datapoints cfgSample 0 0 =
      ({ simNoDps with due_datapoints := [] }, some Err.zeroDivisionError) :=
  claim5_theorem simNoDps cfgSample 0 0 10 rfl rfl

/-- Claim C6 (code bug).  Adding a participant to a started run calls
`add_student_app` with `starts=None`; the code then evaluates
`self.ends - starts` with `starts = None` (line 102), which raises
`TypeError`, so no due items are created for the late participant and the
state is unchanged — instead of scheduling the participant from `now` as
the claim states. -/
theorem claim6_code_evaluation :
    simStarted.add_student_app appBob [dpA, dpB] none 7 =
      (simStarted, some Err.typeErrorNoneOperand) := by
  with_unfolding_all decide

/-- Claim C7 (confirmed).  Invoking `start` on a run whose status is
already `"started"` is a no-op: the guard `status == 'start'` is false, so
no field changes, no due items are created, and no error is raised; hence
running `start` twice equals running it once. -/
theorem claim7_theorem (s : Simulator) (cfg : Config) (now : ℚ)
    (h : s.status = "started") : s.start cfg now = (s, none) := by
  simp [Simulator.start, h]

/-- Claim C7, witness: the concrete started run. -/
theorem claim7_witness : simStarted.start cfgSample 5 = (simStarted, none) :=
  claim7_theorem simStarted cfgSample 5 rfl

/-- Claim C8 (confirmed).  Invoking `reset` on a run whose status is
`"reset"` deletes every one of its due items — leaving zero regardless of
the prior contents — and settles the status at `"stopped"`. -/
theorem claim8_theorem (s : Simulator) (h : s.status = "reset") :
    s.reset = { s with due_datapoints := [], status := "stopped" } := by
  simp [Simulator.reset, h]

/-- Claim C8, witness: the concrete resetting run. -/
theorem claim8_witness :
    simReset.reset = { simReset with due_datapoints := [], status := "stopped" } :=
  claim8_theorem simReset rfl

/-- Claim C3 (confirmed).  For every run whose schedule generation succeeds
— which forces at least one data point — with the eligible enrollments
naming pairwise distinct students and the data points having pairwise
distinct keys, the generated due set has exactly
`N * M` items (`N` data points times `M` eligible enrollments), and the
(student, data point) pairs of those items are pairwise distinct. -/
theorem claim3_theorem (s : Simulator) (cfg : Config) (now starts : ℚ)
    (hsucc : (s.create_due_datapoints cfg now starts).2 = none)
    (hstud : ((eligibleApps s).map (fun a => a.student)).Nodup)
    (hdp : (s.datapoints.map (fun dp => dp.id)).Nodup) :
    ((s.create_due_datapoints cfg now starts).1.due_datapoints).length =
        s.datapoints.length * (eligibleApps s).length ∧
    (((s.create_due_datapoints cfg now starts).1.due_datapoints).map
        (fun d => (d.student, d.datapointId))).Nodup := by
  obtain ⟨e, hends, hlen, hI, hcap⟩ := create_succ s cfg now starts hsucc
  rw [create_ok s cfg now starts e hends hlen hI hcap]
  dsimp only
  constructor
  · rw [freshBatch_length]
    exact Nat.mul_comm _ _
  · exact freshBatch_pairs_nodup s.datapoints (eligibleApps s) hstud hdp

/-- Claim C3, witness: the concrete two-point, two-student run generates
`2 * 2 = 4` items with distinct (student, data point) pairs. -/
theorem claim3_witness :
    ((simStart.create_due_datapoints cfgSample 0 0).1.due_datapoints).length =
        simStart.datapoints.length * (eligibleApps simStart).length ∧
    (((simStart.create_due_datapoints cfgSample 0 0).1.due_datapoints).map
        (fun d => (d.student, d.datapointId))).Nodup :=
  claim3_theorem simStart cfgSample 0 0 (by with_unfolding_all decide)
    (by with_unfolding_all decide) (by with_unfolding_all decide)

/-- Claim C4 (confirmed).  For a run with an end time `e`, at least one
data point and `st < e`, scheduling a single participant anchored at `st`
succeeds and appends its per-participant list; that list is as long as the
data-point sequence; its `i`-th item carries the `i`-th data point in
sequence order with due time `st + i * interval` where
`interval = (e - st) / N` — in particular the 0-th due time is `st` itself
— and each successive due time is the previous one plus `interval`,
strictly increasing. -/
theorem claim4_theorem (s : Simulator) (app : StudentApp)
    (dps : List Datapoint) (st now e : ℚ) (hends : s.ends = some e)
    (hlen : dps.length ≠ 0) (hlt : st < e) :
    s.add_student_app app dps (some st) now =
      ({ s with due_datapoints := (s.due_datapoints ++
          mkDueList app.student (renderUrl s.endpoint app.app_name)
            ((e - st) / (dps.length : ℚ)) dps st) }, none) ∧
    (mkDueList app.student (renderUrl s.endpoint app.app_name)
        ((e - st) / (dps.length : ℚ)) dps st).length = dps.length ∧
    (∀ i dp, dps.get? i = some dp →
      (mkDueList app.student (renderUrl s.endpoint app.app_name)
          ((e - st) / (dps.length : ℚ)) dps st).get? i =
        some { datapointId := dp.id, student := app.student,
               due := st + (i : ℚ) * ((e - st) / (dps.length : ℚ)),
               url := renderUrl s.endpoint app.app_name, state := "due" }) ∧
    (∀ i d1 d2,
      (mkDueList app.student (renderUrl s.endpoint app.app_name)
          ((e - st) / (dps.length : ℚ)) dps st).get? i = some d1 →
      (mkDueList app.student (renderUrl s.endpoint app.app_name)
          ((e - st) / (dps.length : ℚ)) dps st).get? (i + 1) = some d2 →
      d2.due = d1.due + (e - st) / (dps.length : ℚ) ∧ d1.due < d2.due) := by
  have hpos : 0 < (e - st) / (dps.length : ℚ) := by
    apply div_pos (sub_pos.mpr hlt)
    exact_mod_cast Nat.pos_of_ne_zero hlen
  refine ⟨add_student_app_ok s app dps hends hlen, mkDueList_length dps st, ?_, ?_⟩
  · intro i dp hget
    rw [mkDueList_get? dps st i, hget]
    rfl
  · intro i d1 d2 h1 h2
    rw [mkDueList_get? dps st i] at h1
    rw [mkDueList_get? dps st (i + 1)] at h2
    cases hg1 : dps.get? i with
    | none => rw [hg1] at h1; simp at h1
    | some dp1 =>
      cases hg2 : dps.get? (i + 1) with
      | none => rw [hg2] at h2; simp at h2
      | some dp2 =>
        rw [hg1] at h1
        rw [hg2] at h2
        dsimp only [Option.map] at h1 h2
        rw [Option.some.injEq] at h1 h2
        have hd1 : d1.due = st + (i : ℚ) * ((e - st) / (dps.length : ℚ)) := by
          rw [← h1]
        have hd2 : d2.due = st + ((i : ℚ) + 1) * ((e - st) / (dps.length : ℚ)) := by
          rw [← h2]
          push_cast
          ring_nf
        constructor
        · rw [hd1, hd2]; ring
        · rw [hd1, hd2]
          have := hpos
          nlinarith

/-- Claim C4, witness: scheduling one participant of the concrete run at
its start time. -/
theorem claim4_witness :
    simStart.add_student_app appAlice [dpA, dpB] (some 0) 0 =
      ({ simStart with due_datapoints := (simStart.due_datapoints ++
          mkDueList appAlice.student (renderUrl simStart.endpoint appAlice.app_name)
            ((10 - 0) / (([dpA, dpB].length : ℕ) : ℚ)) [dpA, dpB] 0) }, none) :=
  (claim4_theorem simStart appAlice [dpA, dpB] 0 0 10 rfl
    (by with_unfolding_all decide) (by with_unfolding_all decide)).1

/-- Claim C9, counterexample.  The claim says schedule generation with
`N ≥ 1` data points and zero eligible participants always succeeds with an
empty batch; but on a run whose end time equals the scheduling start time
the capacity computation divides by `interval.total_seconds() = 0` and
raises `ZeroDivisionError` even though there is no participant to
schedule. -/
theorem claim9_counterexample :
    (simZeroAppsZeroWindow.create_due_datapoints cfgSample 0 0).2 =
      some Err.zeroDivisionError := by
  with_unfolding_all decide

/-- Claim C9, amended.  For every run with an end time `e`, at least one
data point, a scheduling start time different from `e`, and zero eligible
participants, schedule generation succeeds and produces an empty batch of
due items. -/
theorem claim9_theorem (s : Simulator) (cfg : Config) (now starts e : ℚ)
    (hends : s.ends = some e) (hlen : s.datapoints.length ≠ 0)
    (hwin : e ≠ starts) (helig : eligibleApps s = []) :
    s.create_due_datapoints cfg now starts =
      ({ s with interval := some ((e - starts) / (s.datapoints.length : ℚ)), due_datapoints := [] },
       none) := by
  have hI : (e - starts) / (s.datapoints.length : ℚ) ≠ 0 := by
    apply div_ne_zero (sub_ne_zero_of_ne hwin)
    exact_mod_cast hlen
  have hcap : ¬((cfg.blockSize : ℚ) <
      ((eligibleApps s).length : ℚ) *
        (cfg.producerInterval / ((e - starts) / (s.datapoints.length : ℚ)))) := by
    rw [helig]
    simp
  rw [create_ok s cfg now starts e hends hlen hI hcap, helig]
  rfl

/-- Claim C9, witness for the amended theorem: the zero-eligible run with a
proper window succeeds with an empty batch. -/
theorem claim9_witness :
    simZeroApps.create_due_datapoints cfgSample 0 0 =
      ({ simZeroApps with interval := some ((10 - 0) / ((simZeroApps.datapoints.length : ℕ) : ℚ)), due_datapoints := [] },
       none) :=
  claim9_theorem simZeroApps cfgSample 0 0 10 rfl
    (by with_unfolding_all decide) (by with_unfolding_all decide)
    (by with_unfolding_all decide)

/-- Claim C10 (confirmed).  Schedule generation deletes every pre-existing
due item before generating: its outcome is entirely independent of the
prior due set (first conjunct, for an arbitrary prior set `old`), and on
success the run's due set is exactly the freshly generated batch (second
conjunct) — no item from a previous start survives. -/
theorem claim10_theorem (s : Simulator) (cfg : Config) (now starts e : ℚ)
    (old : List DueDatapoint) (hends : s.ends = some e)
    (hsucc : (s.create_due_datapoints cfg now starts).2 = none) :
    Simulator.create_due_datapoints { s with due_datapoints := old } cfg now starts =
        s.create_due_datapoints cfg now starts ∧
    (s.create_due_datapoints cfg now starts).1.due_datapoints =
      freshBatch s.endpoint s.datapoints starts
        ((e - starts) / (s.datapoints.length : ℚ)) (eligibleApps s) := by
  obtain ⟨e2, hends2, hlen, hI, hcap⟩ := create_succ s cfg now starts hsucc
  have he : e2 = e := by
    rw [hends] at hends2
    exact ((Option.some.injEq _ _).mp hends2).symm
  subst he
  constructor
  · rfl
  · rw [create_ok s cfg now starts e2 hends2 hlen hI hcap]

/-- Claim C10, witness: the concrete run with a stale due item swapped in
still generates the same fresh batch. -/
theorem claim10_witness :
    Simulator.create_due_datapoints { simStart with due_datapoints := [⟨9, 9, 9, "http://x/p", "due"⟩] } cfgSample 0 0 =
        simStart.create_due_datapoints cfgSample 0 0 ∧
    (simStart.create_due_datapoints cfgSample 0 0).1.due_datapoints =
      freshBatch simStart.endpoint simStart.datapoints 0
        ((10 - 0) / ((simStart.datapoints.length : ℕ) : ℚ)) (eligibleApps simStart) :=
  claim10_theorem simStart cfgSample 0 0 10 [⟨9, 9, 9, "http://x/p", "due"⟩] rfl
    (by with_unfolding_all decide)

end Portal
